import Mathlib

/-!
# Verification of the real-time WebSocket session of pulse-dashboard

Shallow embedding of the WebSocket provider (the session state machine,
reconnection policy, heartbeat timer, subscription registry and message
dispatcher) found in the repository's WebSocket context module, together
with theorems settling the specification claims about it.

The embedding follows the source line by line:
* `WebSocketChannel`, `WSMessage`, `Subscription` mirror the exported types;
* `dispatch` mirrors the body of `socket.onmessage` (pong guard, channel
  routing, `system` catch-all);
* `runCallbacks` / `dispatchThrow` mirror the same handler when a listener
  callback may throw: a JavaScript `forEach` aborts at the first exception,
  which is then caught by the surrounding `try`;
* `SessionState` with `connect`, `handleOpen`, `handleClose`, `disconnect`
  mirrors the session's refs (`reconnectAttemptsRef`, the two timer refs,
  `isManualDisconnect`, `socketRef`) and status updates;
* `stepTimers` / `runEvents` give the timer-firing semantics: a heartbeat
  interval that emits `ping` only while set and while the socket is open,
  and a pending reconnect timeout that invokes `connect` when it fires;
* `subscribeReg` / `unsubscribeReg` / `unsubscribeOp` mirror `subscribe`,
  the unsubscribe function it returns, and `unsubscribe`.

Callbacks are identified by natural-number identities (callback identity is
what the source compares with `===`); their observable behaviour during a
dispatch is recorded as a list of invocation events `(callback, argument)`.
-/

namespace PulseWS

/-- The closed set of topics (`WebSocketChannel` in the source). -/
inductive WebSocketChannel
  | transactions
  | prices
  | security
  | user_activity
  | system
  | notifications
deriving DecidableEq, Repr

/-- The wire envelope `WebSocketMessage`.  `type` is `Option String` because
a parsed JSON object may lack the field altogether (the source never checks
for its presence); `channel` is optional as in the source; the opaque `data`
payload is modelled by a natural number; `timestamp` is a string. -/
structure WSMessage where
  type : Option String
  channel : Option WebSocketChannel
  data : Nat
  timestamp : String
deriving DecidableEq, Repr

/-- A registry entry: `{ channel, callback }` with callback identity. -/
structure Subscription where
  channel : WebSocketChannel
  callback : Nat
deriving DecidableEq, Repr

/-- The argument a callback is invoked with: channel routing passes
`message.data`, the `system` catch-all passes the entire envelope. -/
inductive CbArg
  | payload (d : Nat)
  | envelope (m : WSMessage)
deriving DecidableEq, Repr

/-- The channel-routing loop of `socket.onmessage`: if the message carries a
channel, every subscription whose channel matches is invoked with
`message.data`, in registry order. -/
def channelRouting (subs : List Subscription) (m : WSMessage) :
    List (Nat × CbArg) :=
  match m.channel with
  | some ch =>
      (subs.filter (fun s => s.channel == ch)).map
        (fun s => (s.callback, CbArg.payload m.data))
  | none => []

/-- The global-handler loop of `socket.onmessage`: every subscription on the
reserved `system` channel receives the whole envelope. -/
def systemFanout (subs : List Subscription) (m : WSMessage) :
    List (Nat × CbArg) :=
  (subs.filter (fun s => s.channel == WebSocketChannel.system)).map
    (fun s => (s.callback, CbArg.envelope m))

/-- The dispatcher (`socket.onmessage` after a successful parse, with no
callback throwing): messages of type `pong` are discarded before any
routing; every other message is channel-routed and then offered to the
`system` catch-all. -/
def dispatch (subs : List Subscription) (m : WSMessage) :
    List (Nat × CbArg) :=
  if m.type = some "pong" then []
  else channelRouting subs m ++ systemFanout subs m

theorem channelRouting_count (subs : List Subscription) (m : WSMessage)
    (T : WebSocketChannel) (cb : Nat) (hch : m.channel = some T) :
    (channelRouting subs m).count (cb, CbArg.payload m.data) =
      subs.count ⟨T, cb⟩ := by
  unfold channelRouting
  rw [hch]
  induction subs with
  | nil => simp
  | cons s rest ih =>
      simp only [List.filter_cons, List.count_cons]
      by_cases hc : s.channel = T
      · rw [if_pos (by simp [hc])]
        simp only [List.map_cons, List.count_cons, ih]
        by_cases hcb : s.callback = cb
        · have hs : s = Subscription.mk T cb := by cases s; simp_all
          simp [hs, hcb]
        · have hs : ¬ s = Subscription.mk T cb := by
            intro h; cases s; simp_all
          simp [hs, hcb]
      · rw [if_neg (by simp [hc])]
        rw [ih]
        have hs : ¬ s = Subscription.mk T cb := by
          intro h; cases s; simp_all
        simp [hs]

theorem channelRouting_not_registered (subs : List Subscription)
    (m : WSMessage) (T : WebSocketChannel) (c : Nat)
    (hch : m.channel = some T) (hout : Subscription.mk T c ∉ subs) :
    ∀ arg, (c, arg) ∉ channelRouting subs m := by
  intro arg hmem
  unfold channelRouting at hmem
  rw [hch] at hmem
  rcases List.mem_map.mp hmem with ⟨s, hsmem, heq⟩
  have hsch : s.channel = T := by
    have := (List.mem_filter.mp hsmem).2
    exact beq_iff_eq.mp this
  have hscb : s.callback = c := by
    have := congrArg Prod.fst heq
    simpa using this
  apply hout
  have : s = Subscription.mk T c := by cases s; simp_all
  rw [← this]
  exact (List.mem_filter.mp hsmem).1

theorem systemFanout_only_envelopes (subs : List Subscription)
    (m : WSMessage) (c : Nat) (d : Nat)
    (hmem : (c, CbArg.payload d) ∈ systemFanout subs m) : False := by
  unfold systemFanout at hmem
  rcases List.mem_map.mp hmem with ⟨s, _, heq⟩
  have := congrArg Prod.snd heq
  simp at this

theorem dispatch_count_payload (subs : List Subscription) (m : WSMessage)
    (T : WebSocketChannel) (cb : Nat) (hch : m.channel = some T)
    (hty : m.type ≠ some "pong") :
    (dispatch subs m).count (cb, CbArg.payload m.data) =
      subs.count ⟨T, cb⟩ := by
  unfold dispatch
  rw [if_neg hty, List.count_append, channelRouting_count subs m T cb hch]
  have hz : (systemFanout subs m).count (cb, CbArg.payload m.data) = 0 := by
    rw [List.count_eq_zero]
    intro hmem
    exact systemFanout_only_envelopes subs m cb m.data hmem
  omega

/-- C1: for every topic `T` and callback `cb`, if `(T, cb)` is registered
exactly once at the moment a non-pong envelope with `channel = T` is
dispatched, then `cb` is invoked exactly once with the envelope's `data`
field, and a callback not registered for `T` at that moment receives no
invocation from the channel routing. -/
theorem dispatch_routes_to_registered (subs : List Subscription)
    (m : WSMessage) (T : WebSocketChannel) (cb : Nat)
    (hch : m.channel = some T) (hty : m.type ≠ some "pong")
    (hreg : subs.count ⟨T, cb⟩ = 1) :
    (dispatch subs m).count (cb, CbArg.payload m.data) = 1 ∧
      ∀ c, Subscription.mk T c ∉ subs →
        ∀ arg, (c, arg) ∉ channelRouting subs m := by
  constructor
  · rw [dispatch_count_payload subs m T cb hch hty, hreg]
  · intro c hout arg
    exact channelRouting_not_registered subs m T c hch hout arg

/-- Witness for C1 at a concrete registry and envelope. -/
theorem dispatch_routes_to_registered_witness :
    (dispatch [⟨WebSocketChannel.transactions, 0⟩]
        ⟨some "tx", some WebSocketChannel.transactions, 42, "t"⟩).count
        (0, CbArg.payload 42) = 1 ∧
      ∀ c, Subscription.mk WebSocketChannel.transactions c ∉
          [Subscription.mk WebSocketChannel.transactions 0] →
        ∀ arg, (c, arg) ∉ channelRouting
          [⟨WebSocketChannel.transactions, 0⟩]
          ⟨some "tx", some WebSocketChannel.transactions, 42, "t"⟩ :=
  dispatch_routes_to_registered
    [⟨WebSocketChannel.transactions, 0⟩]
    ⟨some "tx", some WebSocketChannel.transactions, 42, "t"⟩
    WebSocketChannel.transactions 0 rfl (by decide) (by decide)

/-- Running a `forEach` over invocation events when a callback may throw
(`throws` gives each callback identity's behaviour): JavaScript `forEach`
invokes callbacks in order and an exception aborts the loop.  Returns the
events that actually ran (the thrower included, since it starts executing)
and whether an exception escaped the loop. -/
def runCallbacks (throws : Nat → Bool) :
    List (Nat × CbArg) → List (Nat × CbArg) × Bool
  | [] => ([], false)
  | c :: rest =>
      if throws c.1 then ([c], true)
      else
        let r := runCallbacks throws rest
        (c :: r.1, r.2)

/-- The dispatcher when callbacks may throw, exactly as `socket.onmessage`
behaves: the pong guard first; then the channel-routing `forEach`; if it
throws, the exception lands in the handler's `catch` and the `system`
catch-all loop never runs; otherwise the catch-all `forEach` runs (its own
exception is likewise caught). -/
def dispatchThrow (throws : Nat → Bool) (subs : List Subscription)
    (m : WSMessage) : List (Nat × CbArg) :=
  if m.type = some "pong" then []
  else
    let r1 := runCallbacks throws (channelRouting subs m)
    if r1.2 then r1.1
    else r1.1 ++ (runCallbacks throws (systemFanout subs m)).1

/-- An inbound raw frame: either its payload is not valid JSON
(`JSON.parse` throws) or it parses to an envelope. -/
inductive RawFrame
  | malformed
  | wellFormed (m : WSMessage)
deriving DecidableEq, Repr

/-- The whole `socket.onmessage` handler on one raw frame: a parse failure
is caught and logged — no callback runs, no exception propagates; a parsed
envelope is dispatched.  The handler never touches session state, which the
second component of the result records. -/
def handleFrame (subs : List Subscription) : RawFrame → List (Nat × CbArg)
  | RawFrame.malformed => []
  | RawFrame.wellFormed m => dispatch subs m

/-- Processing a sequence of inbound frames: each frame is handled
independently by `socket.onmessage`. -/
def processFrames (subs : List Subscription) (fs : List RawFrame) :
    List (Nat × CbArg) :=
  (fs.map (handleFrame subs)).flatten

theorem runCallbacks_no_throw (throws : Nat → Bool)
    (l : List (Nat × CbArg)) (h : ∀ c ∈ l, throws c.1 = false) :
    runCallbacks throws l = (l, false) := by
  induction l with
  | nil => rfl
  | cons c rest ih =>
      unfold runCallbacks
      rw [h c (List.mem_cons_self c rest)]
      rw [ih (fun x hx => h x (List.mem_cons_of_mem c hx))]
      simp

theorem runCallbacks_first_throw (throws : Nat → Bool)
    (l : List (Nat × CbArg)) (i : Nat) (hi : i < l.length)
    (hthrow : throws (l.get ⟨i, hi⟩).1 = true)
    (hbefore : ∀ j, (hj : j < i) →
      throws (l.get ⟨j, Nat.lt_trans hj hi⟩).1 = false) :
    runCallbacks throws l = (l.take (i + 1), true) := by
  induction l generalizing i with
  | nil => exact absurd hi (Nat.not_lt_zero i)
  | cons c rest ih =>
      cases i with
      | zero =>
          unfold runCallbacks
          simp only [List.get] at hthrow
          rw [if_pos hthrow]
          simp
      | succ i =>
          unfold runCallbacks
          have hc : throws c.1 = false := by
            have := hbefore 0 (Nat.succ_pos i)
            simpa using this
          rw [hc]
          have hi' : i < rest.length := Nat.lt_of_succ_lt_succ hi
          have ht' : throws (rest.get ⟨i, hi'⟩).1 = true := by
            simpa using hthrow
          have hb' : ∀ j, (hj : j < i) →
              throws (rest.get ⟨j, Nat.lt_trans hj hi'⟩).1 = false := by
            intro j hj
            have := hbefore (j + 1) (Nat.succ_lt_succ hj)
            simpa using this
          rw [ih i hi' ht' hb']
          simp [List.take_succ_cons]

/-- Session status (`WebSocketStatus` in the source). -/
inductive WSStatus
  | connecting
  | connected
  | disconnecting
  | disconnected
  | error
deriving DecidableEq, Repr

/-- The readyState of the underlying transport socket. -/
inductive ReadyState
  | CONNECTING
  | OPEN
  | CLOSING
  | CLOSED
deriving DecidableEq, Repr

/-- Provider configuration (`WebSocketProviderProps` minus the view-layer
fields): `reconnectInterval` and `heartbeatInterval` in milliseconds,
`maxReconnectAttempts` a natural number. -/
structure Config where
  reconnectInterval : Nat
  maxReconnectAttempts : Nat
  heartbeatInterval : Nat
deriving DecidableEq, Repr

/-- The session's mutable state: `status` (React state), the refs
`reconnectAttemptsRef`, `heartbeatTimerRef` (whether the interval is set),
`reconnectTimerRef` (the delay of the pending timeout, when one is set),
`isManualDisconnect`, and `socketRef` with its readyState.
`socketsOpened` counts `new WebSocket(url)` constructions, so that opening
a fresh transport is observable. -/
structure SessionState where
  status : WSStatus
  reconnectAttempts : Nat
  heartbeatTimer : Bool
  reconnectTimer : Option Nat
  isManualDisconnect : Bool
  socket : Option ReadyState
  socketsOpened : Nat
deriving DecidableEq, Repr

/-- `connect()`: returns immediately when the current socket's readyState
is `OPEN`; otherwise sets status `connecting`, clears the manual flag and
constructs a fresh socket (readyState `CONNECTING`). -/
def connect (s : SessionState) : SessionState :=
  if s.socket = some ReadyState.OPEN then s
  else
    { s with
      status := WSStatus.connecting
      isManualDisconnect := false
      socket := some ReadyState.CONNECTING
      socketsOpened := s.socketsOpened + 1 }

/-- `socket.onopen`: status `connected`, reconnect counter reset to `0`,
heartbeat interval started when `heartbeatInterval > 0`.  (It also resends
a `subscribe` frame per registered subscription; those outbound frames play
no role in the claims below.) -/
def handleOpen (cfg : Config) (s : SessionState) : SessionState :=
  { s with
    status := WSStatus.connected
    reconnectAttempts := 0
    socket := some ReadyState.OPEN
    heartbeatTimer := decide (0 < cfg.heartbeatInterval) }

/-- `socket.onclose`: status `disconnected`, heartbeat interval cleared,
the socket that closed now `CLOSED`; then, when the close is not manual and
`reconnectAttempts < maxReconnectAttempts`, the counter is incremented and
a reconnect timeout of `reconnectInterval` is scheduled.  (The source
performs the status/heartbeat updates before testing the guard; the guard
reads only fields those updates leave untouched, so both branches carry
the common updates here.) -/
def handleClose (cfg : Config) (s : SessionState) : SessionState :=
  if s.isManualDisconnect = false ∧
      s.reconnectAttempts < cfg.maxReconnectAttempts then
    { s with
      status := WSStatus.disconnected
      heartbeatTimer := false
      socket := s.socket.map (fun _ => ReadyState.CLOSED)
      reconnectAttempts := s.reconnectAttempts + 1
      reconnectTimer := some cfg.reconnectInterval }
  else
    { s with
      status := WSStatus.disconnected
      heartbeatTimer := false
      socket := s.socket.map (fun _ => ReadyState.CLOSED) }

/-- `disconnect()`: sets the manual flag, cancels the heartbeat interval
and any pending reconnect timeout, closes and drops the socket, and leaves
status `disconnected` — all synchronously before returning. -/
def disconnect (s : SessionState) : SessionState :=
  { s with
    status := WSStatus.disconnected
    isManualDisconnect := true
    heartbeatTimer := false
    reconnectTimer := none
    socket := none }

/-- Externally observable side effects of timer/socket activity: a `ping`
frame put on the wire, or an automatic invocation of `connect()`. -/
inductive Output
  | ping
  | connectCall
deriving DecidableEq, Repr

/-- Asynchronous events that time passing can deliver to the session: the
heartbeat interval firing, the pending reconnect timeout firing, and the
close event of a closed socket. -/
inductive SEvent
  | heartbeatFire
  | reconnectFire
  | closeEvt
deriving DecidableEq, Repr

/-- One asynchronous event.  A heartbeat fire emits `ping` only when the
interval is still set and the socket is open (the guard inside the interval
callback); a reconnect fire consumes the pending timeout, when set, and
invokes `connect()`; a close event runs `socket.onclose`. -/
def stepTimers (cfg : Config) (s : SessionState) :
    SEvent → SessionState × List Output
  | SEvent.heartbeatFire =>
      if s.heartbeatTimer ∧ s.socket = some ReadyState.OPEN then
        (s, [Output.ping])
      else (s, [])
  | SEvent.reconnectFire =>
      match s.reconnectTimer with
      | some _ => (connect { s with reconnectTimer := none },
          [Output.connectCall])
      | none => (s, [])
  | SEvent.closeEvt => (handleClose cfg s, [])

/-- Running a sequence of asynchronous events, collecting the outputs. -/
def runEvents (cfg : Config) (s : SessionState) :
    List SEvent → SessionState × List Output
  | [] => (s, [])
  | e :: es =>
      let r := stepTimers cfg s e
      let rest := runEvents cfg r.1 es
      (rest.1, r.2 ++ rest.2)

/-- One failed reconnection cycle: the pending reconnect timeout (if any)
fires — invoking `connect()` — and the resulting connection attempt fails,
closing the socket.  Applied to a freshly connected state (no pending
timeout) the first application is simply the first non-manual close. -/
def failCycle (cfg : Config) (s : SessionState) : SessionState :=
  handleClose cfg (stepTimers cfg s SEvent.reconnectFire).1

/-- The session state after the k-th consecutive failed close (for
`1 ≤ k ≤ maxReconnectAttempts`): disconnected, `k` attempts consumed, the
k-th retry pending at the flat `reconnectInterval` delay, and `k - 1`
fresh sockets opened by the retries so far. -/
def retryState (cfg : Config) (s0 : SessionState) (k : Nat) : SessionState :=
  { status := WSStatus.disconnected
    reconnectAttempts := k
    heartbeatTimer := false
    reconnectTimer := some cfg.reconnectInterval
    isManualDisconnect := false
    socket := some ReadyState.CLOSED
    socketsOpened := s0.socketsOpened + (k - 1) }

/-- The terminal state of a reconnection episode: every attempt consumed,
no retry pending. -/
def exhaustedState (cfg : Config) (s0 : SessionState) : SessionState :=
  { status := WSStatus.disconnected
    reconnectAttempts := cfg.maxReconnectAttempts
    heartbeatTimer := false
    reconnectTimer := none
    isManualDisconnect := false
    socket := some ReadyState.CLOSED
    socketsOpened := s0.socketsOpened + cfg.maxReconnectAttempts }

theorem failCycle_init (cfg : Config) (s0 : SessionState)
    (h0 : s0.reconnectAttempts = 0) (hm : s0.isManualDisconnect = false)
    (ht : s0.reconnectTimer = none) (hs : s0.socket.isSome = true)
    (hmax : 1 ≤ cfg.maxReconnectAttempts) :
    failCycle cfg s0 = retryState cfg s0 1 := by
  obtain ⟨rs, hrs⟩ := Option.isSome_iff_exists.mp hs
  unfold failCycle stepTimers handleClose retryState
  rw [ht]
  simp only [hrs, Option.map_some, h0, hm]
  rw [if_pos ⟨by simp, hmax⟩]
  simp [SessionState.mk.injEq]

theorem failCycle_step (cfg : Config) (s0 : SessionState) (k : Nat)
    (hk1 : 1 ≤ k) (hk : k < cfg.maxReconnectAttempts) :
    failCycle cfg (retryState cfg s0 k) = retryState cfg s0 (k + 1) := by
  unfold failCycle stepTimers retryState connect handleClose
  simp only [Option.map_some, reduceCtorEq, if_neg]
  rw [if_pos ⟨rfl, hk⟩]
  simp [SessionState.mk.injEq]
  omega

theorem failCycle_exhaust (cfg : Config) (s0 : SessionState)
    (hmax : 1 ≤ cfg.maxReconnectAttempts) :
    failCycle cfg (retryState cfg s0 cfg.maxReconnectAttempts) =
      exhaustedState cfg s0 := by
  unfold failCycle stepTimers retryState connect handleClose exhaustedState
  simp only [Option.map_some, reduceCtorEq, if_neg]
  rw [if_neg (by simp)]
  simp [SessionState.mk.injEq]
  omega

theorem failCycle_zero_budget (cfg : Config) (s0 : SessionState)
    (h0 : s0.reconnectAttempts = 0) (hm : s0.isManualDisconnect = false)
    (ht : s0.reconnectTimer = none) (hs : s0.socket.isSome = true)
    (hmax : cfg.maxReconnectAttempts = 0) :
    failCycle cfg s0 = exhaustedState cfg s0 := by
  obtain ⟨rs, hrs⟩ := Option.isSome_iff_exists.mp hs
  unfold failCycle stepTimers handleClose exhaustedState
  rw [ht]
  simp only [hrs, Option.map_some, h0, hm, hmax]
  rw [if_neg (by simp)]
  simp [ht]

theorem failCycle_fixpoint (cfg : Config) (s0 : SessionState) :
    failCycle cfg (exhaustedState cfg s0) = exhaustedState cfg s0 := by
  unfold failCycle stepTimers exhaustedState handleClose
  simp

theorem failCycle_iterate_retry (cfg : Config) (s0 : SessionState)
    (h0 : s0.reconnectAttempts = 0) (hm : s0.isManualDisconnect = false)
    (ht : s0.reconnectTimer = none) (hs : s0.socket.isSome = true) :
    ∀ k, 1 ≤ k → k ≤ cfg.maxReconnectAttempts →
      (failCycle cfg)^[k] s0 = retryState cfg s0 k := by
  intro k
  induction k with
  | zero => intro h; omega
  | succ k ih =>
      intro _ hk
      cases Nat.eq_zero_or_pos k with
      | inl hz =>
          subst hz
          rw [Function.iterate_one]
          exact failCycle_init cfg s0 h0 hm ht hs hk
      | inr hpos =>
          rw [Function.iterate_succ_apply']
          rw [ih hpos (Nat.le_of_lt hk)]
          exact failCycle_step cfg s0 k hpos hk

theorem failCycle_iterate_exhausted (cfg : Config) (s0 : SessionState)
    (h0 : s0.reconnectAttempts = 0) (hm : s0.isManualDisconnect = false)
    (ht : s0.reconnectTimer = none) (hs : s0.socket.isSome = true) :
    ∀ N, cfg.maxReconnectAttempts + 1 ≤ N →
      (failCycle cfg)^[N] s0 = exhaustedState cfg s0 := by
  have hbase : (failCycle cfg)^[cfg.maxReconnectAttempts + 1] s0 =
      exhaustedState cfg s0 := by
    cases Nat.eq_zero_or_pos cfg.maxReconnectAttempts with
    | inl hz =>
        rw [hz, Function.iterate_one]
        exact failCycle_zero_budget cfg s0 h0 hm ht hs hz
    | inr hpos =>
        rw [Function.iterate_succ_apply']
        rw [failCycle_iterate_retry cfg s0 h0 hm ht hs
          cfg.maxReconnectAttempts hpos (Nat.le_refl _)]
        exact failCycle_exhaust cfg s0 hpos
  intro N hN
  obtain ⟨d, hd⟩ := Nat.exists_eq_add_of_le hN
  subst hd
  induction d with
  | zero => exact hbase
  | succ d ihd =>
      have : cfg.maxReconnectAttempts + 1 + (d + 1) =
          (cfg.maxReconnectAttempts + 1 + d) + 1 := by omega
      rw [this, Function.iterate_succ_apply']
      rw [ihd (by omega)]
      exact failCycle_fixpoint cfg s0

/-- A freshly connected session: no attempts consumed, heartbeat running,
no pending reconnect, one socket opened so far. -/
def connectedState : SessionState :=
  { status := WSStatus.connected
    reconnectAttempts := 0
    heartbeatTimer := true
    reconnectTimer := none
    isManualDisconnect := false
    socket := some ReadyState.OPEN
    socketsOpened := 1 }

/-- A session in the middle of a connection attempt: the socket exists but
its readyState is still `CONNECTING`. -/
def connectingState : SessionState :=
  { status := WSStatus.connecting
    reconnectAttempts := 0
    heartbeatTimer := false
    reconnectTimer := none
    isManualDisconnect := false
    socket := some ReadyState.CONNECTING
    socketsOpened := 1 }

/-- Configuration with a budget of one reconnect attempt. -/
def cfgOne : Config :=
  { reconnectInterval := 3000, maxReconnectAttempts := 1,
    heartbeatInterval := 30000 }

/-- Configuration with a budget of two reconnect attempts. -/
def cfgTwo : Config :=
  { reconnectInterval := 3000, maxReconnectAttempts := 2,
    heartbeatInterval := 30000 }

/-- C2 counterexample: with `maxReconnectAttempts = 1`, after `N = 1` (so
`N ≥ maxReconnectAttempts`) consecutive non-manual closes a reconnect
timeout of 3000 ms is still pending and, when it fires, a further automatic
`connect()` is invoked — contradicting the claim that `N ≥
maxReconnectAttempts` closes leave no automatic `connect()` scheduled.
The guard `attempts < maxReconnectAttempts` runs before the increment, so
the `maxReconnectAttempts`-th close still schedules one final retry. -/
theorem exhaustion_needs_max_plus_one_closes_cex :
    ((failCycle cfgOne)^[1] connectedState).reconnectTimer = some 3000 ∧
      (stepTimers cfgOne ((failCycle cfgOne)^[1] connectedState)
        SEvent.reconnectFire).2 = [Output.connectCall] := by
  constructor <;> decide

/-- C2 (amended): each of the first `maxReconnectAttempts` consecutive
non-manual closes increments the attempt counter by one and schedules a
retry at the flat `reconnectInterval` delay; after
`N ≥ maxReconnectAttempts + 1` consecutive closes with no intervening
successful connection (the `maxReconnectAttempts`-th close still schedules
one final retry, which fails) the session is `disconnected`, no reconnect
is pending, and the state is the fixed `exhaustedState`, so no further
automatic `connect()` is ever scheduled. -/
theorem reconnect_policy_flat_and_bounded (cfg : Config) (s0 : SessionState)
    (h0 : s0.reconnectAttempts = 0) (hm : s0.isManualDisconnect = false)
    (ht : s0.reconnectTimer = none) (hs : s0.socket.isSome = true) :
    (∀ k, 1 ≤ k → k ≤ cfg.maxReconnectAttempts →
        ((failCycle cfg)^[k] s0).reconnectAttempts = k ∧
        ((failCycle cfg)^[k] s0).reconnectTimer =
          some cfg.reconnectInterval) ∧
      ∀ N, cfg.maxReconnectAttempts + 1 ≤ N →
        ((failCycle cfg)^[N] s0).status = WSStatus.disconnected ∧
        ((failCycle cfg)^[N] s0).reconnectTimer = none ∧
        (failCycle cfg)^[N] s0 = exhaustedState cfg s0 := by
  constructor
  · intro k hk1 hk2
    rw [failCycle_iterate_retry cfg s0 h0 hm ht hs k hk1 hk2]
    exact ⟨rfl, rfl⟩
  · intro N hN
    rw [failCycle_iterate_exhausted cfg s0 h0 hm ht hs N hN]
    exact ⟨rfl, rfl, rfl⟩

/-- Witness for the amended C2 with a budget of two attempts: the first
close schedules a flat-delay retry, and after three closes nothing is
pending any more. -/
theorem reconnect_policy_flat_and_bounded_witness :
    ((failCycle cfgTwo)^[1] connectedState).reconnectTimer = some 3000 ∧
      ((failCycle cfgTwo)^[3] connectedState).reconnectTimer = none := by
  have h := reconnect_policy_flat_and_bounded cfgTwo connectedState
    rfl rfl rfl rfl
  exact ⟨(h.1 1 (by decide) (by decide)).2, (h.2 3 (by decide)).2.1⟩

/-- C3: the `socket.onopen` transition into `connected` resets the
reconnect attempt counter to 0, so that afterwards the policy schedules up
to `maxReconnectAttempts` further automatic retries, regardless of how many
attempts the state had consumed before the successful connection. -/
theorem open_resets_reconnect_budget (cfg : Config) (s : SessionState)
    (hm : s.isManualDisconnect = false) (ht : s.reconnectTimer = none) :
    (handleOpen cfg s).reconnectAttempts = 0 ∧
      (handleOpen cfg s).status = WSStatus.connected ∧
      ∀ k, 1 ≤ k → k ≤ cfg.maxReconnectAttempts →
        ((failCycle cfg)^[k] (handleOpen cfg s)).reconnectAttempts = k ∧
        ((failCycle cfg)^[k] (handleOpen cfg s)).reconnectTimer =
          some cfg.reconnectInterval := by
  refine ⟨rfl, rfl, ?_⟩
  intro k hk1 hk2
  rw [failCycle_iterate_retry cfg (handleOpen cfg s) rfl hm ht rfl k hk1 hk2]
  exact ⟨rfl, rfl⟩

/-- Configuration with a budget of five reconnect attempts. -/
def cfgFive : Config :=
  { reconnectInterval := 3000, maxReconnectAttempts := 5,
    heartbeatInterval := 30000 }

/-- A session that has already consumed seven attempts when its socket
finally opens. -/
def staleAttemptsState : SessionState :=
  { status := WSStatus.connecting
    reconnectAttempts := 7
    heartbeatTimer := false
    reconnectTimer := none
    isManualDisconnect := false
    socket := some ReadyState.CONNECTING
    socketsOpened := 3 }

/-- Witness for C3: a state with seven consumed attempts is reset to 0 on
open, and the fifth post-open close still schedules a retry. -/
theorem open_resets_reconnect_budget_witness :
    (handleOpen cfgFive staleAttemptsState).reconnectAttempts = 0 ∧
      ((failCycle cfgFive)^[5]
        (handleOpen cfgFive staleAttemptsState)).reconnectTimer =
        some 3000 := by
  have h := open_resets_reconnect_budget cfgFive staleAttemptsState rfl rfl
  exact ⟨h.1, (h.2.2 5 (by decide) (by decide)).2⟩

theorem runEvents_quiescent (cfg : Config) (events : List SEvent) :
    ∀ s : SessionState, s.heartbeatTimer = false → s.reconnectTimer = none →
      s.isManualDisconnect = true → (runEvents cfg s events).2 = [] := by
  induction events with
  | nil => intro s _ _ _; rfl
  | cons e es ih =>
      intro s hh ht hm
      cases e with
      | heartbeatFire =>
          unfold runEvents stepTimers
          rw [if_neg (by simp [hh])]
          simpa using ih s hh ht hm
      | reconnectFire =>
          unfold runEvents stepTimers
          rw [ht]
          simpa using ih s hh ht hm
      | closeEvt =>
          unfold runEvents stepTimers
          have hh1 : (handleClose cfg s).heartbeatTimer = false := by
            unfold handleClose
            split <;> rfl
          have ht1 : (handleClose cfg s).reconnectTimer = none := by
            unfold handleClose
            rw [if_neg (by simp [hm])]
            exact ht
          have hm1 : (handleClose cfg s).isManualDisconnect = true := by
            unfold handleClose
            rw [if_neg (by simp [hm])]
            exact hm
          simpa using ih (handleClose cfg s) hh1 ht1 hm1

/-- C4: `disconnect()` cancels the heartbeat interval and any pending
reconnect timeout synchronously before returning, and afterwards any
sequence of later asynchronous events (heartbeat fires, reconnect fires,
the closing socket's close event) produces no output at all: no `ping`
frame is emitted and no automatic `connect()` fires, no matter how much
time elapses. -/
theorem disconnect_cancels_all_timers (cfg : Config) (s : SessionState)
    (events : List SEvent) :
    (disconnect s).heartbeatTimer = false ∧
      (disconnect s).reconnectTimer = none ∧
      (runEvents cfg (disconnect s) events).2 = [] :=
  ⟨rfl, rfl, runEvents_quiescent cfg events (disconnect s) rfl rfl rfl⟩

/-- C6 counterexample: calling `connect()` while the session is still
`connecting` is not a no-op — the guard only checks `readyState === OPEN`,
so a second transport is constructed and the state changes. -/
theorem connect_while_connecting_cex :
    connect connectingState ≠ connectingState ∧
      (connect connectingState).socketsOpened = 2 := by
  constructor <;> decide

/-- C6 (amended): `connect()` is a no-op exactly when the current socket's
readyState is `OPEN` (the connected case); in every other state — the
`connecting` state included — it transitions to `connecting` and opens a
fresh transport. -/
theorem connect_noop_only_when_socket_open (s : SessionState) :
    (s.socket = some ReadyState.OPEN → connect s = s) ∧
      (s.socket ≠ some ReadyState.OPEN →
        (connect s).status = WSStatus.connecting ∧
        (connect s).socketsOpened = s.socketsOpened + 1) := by
  constructor
  · intro h
    unfold connect
    rw [if_pos h]
  · intro h
    unfold connect
    rw [if_neg h]
    exact ⟨rfl, rfl⟩

/-- Witness for the amended C6: no-op on an open socket, a second transport
while connecting. -/
theorem connect_noop_only_when_socket_open_witness :
    connect connectedState = connectedState ∧
      (connect connectingState).socketsOpened = 2 := by
  refine ⟨(connect_noop_only_when_socket_open connectedState).1 rfl, ?_⟩
  exact ((connect_noop_only_when_socket_open connectingState).2
    (by decide)).2

/-- The `socket.onmessage` handler on one raw frame when callbacks may
throw.  The handler's try/catch swallows both parse errors and listener
exceptions, so it always returns normally, and its body never writes
session state — the state component passes through unchanged. -/
def onFrame (throws : Nat → Bool) (st : SessionState)
    (subs : List Subscription) :
    RawFrame → SessionState × List (Nat × CbArg)
  | RawFrame.malformed => (st, [])
  | RawFrame.wellFormed m => (st, dispatchThrow throws subs m)

/-- A callback environment in which exactly callback 0 throws. -/
def throwsZero : Nat → Bool := fun c => c == 0

/-- Two distinct listeners registered for the `transactions` channel. -/
def twoListeners : List Subscription :=
  [⟨WebSocketChannel.transactions, 0⟩, ⟨WebSocketChannel.transactions, 1⟩]

/-- An application envelope on the `transactions` channel. -/
def txMsg : WSMessage :=
  ⟨some "tx", some WebSocketChannel.transactions, 5, "t"⟩

/-- C5 counterexample: two callbacks are registered for the frame's
channel and the first throws; the second — although registered for that
frame — is never invoked, because the `forEach` aborts on the exception
and the handler's `catch` only logs it. -/
theorem throwing_listener_skips_rest_cex :
    Subscription.mk WebSocketChannel.transactions 1 ∈ twoListeners ∧
      dispatchThrow throwsZero twoListeners txMsg =
        [(0, CbArg.payload 5)] ∧
      (1, CbArg.payload 5) ∉ dispatchThrow throwsZero twoListeners txMsg := by
  refine ⟨by decide, by decide, by decide⟩

/-- C5 (amended): if, while a non-pong frame is dispatched, the first
throwing callback of the channel routing sits at position `i`, then the
invoked callbacks are exactly the first `i + 1` of the channel routing
(the thrower included): every later channel callback and the whole
`system` catch-all are skipped.  The exception is caught inside the
handler — it returns normally — and the session state is unchanged. -/
theorem throwing_listener_aborts_dispatch (throws : Nat → Bool)
    (st : SessionState) (subs : List Subscription) (m : WSMessage) (i : Nat)
    (hty : m.type ≠ some "pong") (hi : i < (channelRouting subs m).length)
    (hthrow : throws ((channelRouting subs m).get ⟨i, hi⟩).1 = true)
    (hbefore : ∀ j, (hj : j < i) →
      throws ((channelRouting subs m).get ⟨j, Nat.lt_trans hj hi⟩).1 =
        false) :
    onFrame throws st subs (RawFrame.wellFormed m) =
      (st, (channelRouting subs m).take (i + 1)) := by
  unfold onFrame dispatchThrow
  dsimp only
  rw [if_neg hty]
  rw [runCallbacks_first_throw throws (channelRouting subs m) i hi hthrow
    hbefore]
  simp

/-- Witness for the amended C5 at the concrete two-listener registry. -/
theorem throwing_listener_aborts_dispatch_witness :
    onFrame throwsZero connectedState twoListeners
        (RawFrame.wellFormed txMsg) =
      (connectedState, [(0, CbArg.payload 5)]) := by
  have h := throwing_listener_aborts_dispatch throwsZero connectedState
    twoListeners txMsg 0 (by decide) (by decide) (by decide)
    (fun j hj => absurd hj (Nat.not_lt_zero j))
  rw [h]
  decide

/-- An inbound heartbeat `ping` control frame (no channel). -/
def inboundPing : WSMessage := ⟨some "ping", none, 0, "t"⟩

/-- A registry holding one `system` catch-all listener. -/
def systemListener : List Subscription := [⟨WebSocketChannel.system, 3⟩]

/-- C7 counterexample: an inbound `ping` control frame is forwarded to a
subscriber — the `system` catch-all listener receives the whole ping
envelope — because the dispatcher filters only `pong`. -/
theorem ping_not_consumed_cex :
    dispatch systemListener inboundPing =
      [(3, CbArg.envelope inboundPing)] := by
  decide

/-- C7 (amended): inbound `pong` frames are consumed by the dispatcher —
no callback of any channel is invoked for them, the `system` catch-all
included; inbound `ping` frames are not consumed: every registered
`system` catch-all listener receives the full ping envelope. -/
theorem pong_consumed_ping_forwarded :
    (∀ (subs : List Subscription) (m : WSMessage),
        m.type = some "pong" → dispatch subs m = []) ∧
      ∀ (subs : List Subscription) (m : WSMessage) (c : Nat),
        m.type = some "ping" →
        Subscription.mk WebSocketChannel.system c ∈ subs →
        (c, CbArg.envelope m) ∈ dispatch subs m := by
  constructor
  · intro subs m h
    unfold dispatch
    rw [if_pos h]
  · intro subs m c hping hmem
    unfold dispatch
    rw [if_neg (by rw [hping]; decide)]
    apply List.mem_append_right
    unfold systemFanout
    exact List.mem_map.mpr
      ⟨⟨WebSocketChannel.system, c⟩,
        List.mem_filter.mpr ⟨hmem, rfl⟩, rfl⟩

/-- Witness for the amended C7: a concrete pong frame reaches nobody, a
concrete ping frame reaches the `system` listener. -/
theorem pong_consumed_ping_forwarded_witness :
    dispatch systemListener ⟨some "pong", none, 0, "t"⟩ = [] ∧
      (3, CbArg.envelope inboundPing) ∈ dispatch systemListener inboundPing :=
  ⟨pong_consumed_ping_forwarded.1 systemListener
      ⟨some "pong", none, 0, "t"⟩ rfl,
    pong_consumed_ping_forwarded.2 systemListener inboundPing 3 rfl
      (by decide)⟩

/-- `subscribe`'s registry update — the functional update handed to
`setSubscriptions`: append the entry unless one with the same channel and
the same callback identity already exists.  (When the socket is open a
`subscribe` control frame is also sent; that frame plays no role in the
registry-idempotence claim.) -/
def subscribeReg (ch : WebSocketChannel) (cb : Nat)
    (l : List Subscription) : List Subscription :=
  if l.any (fun s => s.channel == ch && s.callback == cb) then l
  else l ++ [⟨ch, cb⟩]

theorem any_pair_iff (l : List Subscription) (ch : WebSocketChannel)
    (cb : Nat) :
    l.any (fun s => s.channel == ch && s.callback == cb) = true ↔
      Subscription.mk ch cb ∈ l := by
  rw [List.any_eq_true]
  constructor
  · rintro ⟨s, hs, hp⟩
    obtain ⟨a, b⟩ := s
    simp at hp
    obtain ⟨h1, h2⟩ := hp
    rw [← h1, ← h2]
    exact hs
  · intro h
    exact ⟨⟨ch, cb⟩, h, by simp⟩

/-- C8: registration is idempotent — starting from a registry without the
`(T, cb)` pair, subscribing it twice changes nothing on the second call,
leaves exactly one `(T, cb)` entry, and a subsequent non-pong envelope on
channel `T` invokes `cb` exactly once with its data (no duplicate
dispatch). -/
theorem subscribe_twice_idempotent (T : WebSocketChannel) (cb : Nat)
    (l : List Subscription) (h : Subscription.mk T cb ∉ l)
    (m : WSMessage) (hch : m.channel = some T)
    (hty : m.type ≠ some "pong") :
    subscribeReg T cb (subscribeReg T cb l) = subscribeReg T cb l ∧
      (subscribeReg T cb (subscribeReg T cb l)).count ⟨T, cb⟩ = 1 ∧
      (dispatch (subscribeReg T cb (subscribeReg T cb l)) m).count
        (cb, CbArg.payload m.data) = 1 := by
  have h1 : subscribeReg T cb l = l ++ [⟨T, cb⟩] := by
    unfold subscribeReg
    exact if_neg (fun hc => h ((any_pair_iff l T cb).mp hc))
  have hmem : Subscription.mk T cb ∈ l ++ [⟨T, cb⟩] :=
    List.mem_append_right l (List.mem_singleton.mpr rfl)
  have h2 : subscribeReg T cb (l ++ [⟨T, cb⟩]) = l ++ [⟨T, cb⟩] := by
    unfold subscribeReg
    exact if_pos ((any_pair_iff (l ++ [⟨T, cb⟩]) T cb).mpr hmem)
  have hcount : (l ++ [Subscription.mk T cb]).count
      (Subscription.mk T cb) = 1 := by
    rw [List.count_append, List.count_eq_zero.mpr h]
    simp
  refine ⟨by rw [h1, h2], ?_, ?_⟩
  · rw [h1, h2, hcount]
  · rw [h1, h2, dispatch_count_payload _ m T cb hch hty, hcount]

/-- Witness for C8: subscribing `(transactions, 0)` twice into a registry
holding one other entry. -/
theorem subscribe_twice_idempotent_witness :
    subscribeReg WebSocketChannel.transactions 0
        (subscribeReg WebSocketChannel.transactions 0
          [⟨WebSocketChannel.prices, 9⟩]) =
      subscribeReg WebSocketChannel.transactions 0
        [⟨WebSocketChannel.prices, 9⟩] ∧
      (subscribeReg WebSocketChannel.transactions 0
        (subscribeReg WebSocketChannel.transactions 0
          [⟨WebSocketChannel.prices, 9⟩])).count
        ⟨WebSocketChannel.transactions, 0⟩ = 1 ∧
      (dispatch
        (subscribeReg WebSocketChannel.transactions 0
          (subscribeReg WebSocketChannel.transactions 0
            [⟨WebSocketChannel.prices, 9⟩])) txMsg).count
        (0, CbArg.payload txMsg.data) = 1 :=
  subscribe_twice_idempotent WebSocketChannel.transactions 0
    [⟨WebSocketChannel.prices, 9⟩] (by decide) txMsg rfl (by decide)

/-- A structurally valid envelope that lacks the `type` field. -/
def noTypeMsg : WSMessage :=
  ⟨none, some WebSocketChannel.transactions, 7, "t"⟩

/-- A registry with a single `transactions` listener. -/
def oneListener : List Subscription := [⟨WebSocketChannel.transactions, 0⟩]

/-- C9 counterexample: a frame that parses but carries no `type` field is
not discarded — the handler routes it and the `transactions` listener is
invoked with its data, because the source never checks that `type` is
present. -/
theorem missing_type_not_discarded_cex :
    handleFrame oneListener (RawFrame.wellFormed noTypeMsg) =
      [(0, CbArg.payload 7)] := by
  decide

/-- C9 (amended): a frame whose payload fails JSON parsing is logged and
discarded — no callback is invoked for it, no exception escapes the
handler (the model handler is a total function), and the session continues
normal operation: the frames delivered before and after it are dispatched
exactly as they would be without it.  (A frame that parses but lacks
`type` is not discarded; it is routed like an application frame, as the
counterexample shows.) -/
theorem malformed_frame_discarded (subs : List Subscription)
    (pre post : List RawFrame) :
    handleFrame subs RawFrame.malformed = [] ∧
      processFrames subs (pre ++ RawFrame.malformed :: post) =
        processFrames subs pre ++ processFrames subs post := by
  refine ⟨rfl, ?_⟩
  unfold processFrames
  rw [List.map_append, List.map_cons, List.flatten_append,
    List.flatten_cons]
  simp [handleFrame]

/-- An outbound control frame `{type, channel}`, as serialized by `send`. -/
structure OutFrame where
  type : String
  channel : Option WebSocketChannel
deriving DecidableEq, Repr

/-- The registry update shared by the unsubscribe function returned by
`subscribe` and by `unsubscribe(channel, callback)`: keep every entry
except those matching both the channel and the callback identity. -/
def unsubscribeReg (ch : WebSocketChannel) (cb : Nat)
    (l : List Subscription) : List Subscription :=
  l.filter (fun s => !(s.channel == ch && s.callback == cb))

/-- The complete unsubscribe operation: the registry update plus, whenever
the socket's readyState is `OPEN`, one `unsubscribe` control frame for the
channel — sent unconditionally on the registry's remaining contents. -/
def unsubscribeOp (sockOpen : Bool) (ch : WebSocketChannel) (cb : Nat)
    (l : List Subscription) : List Subscription × List OutFrame :=
  (unsubscribeReg ch cb l,
   if sockOpen then [⟨"unsubscribe", some ch⟩] else [])

/-- C10: with the socket open, unsubscribing `(T, cb)` removes exactly the
`(T, cb)` entries from the registry — every other entry keeps its
multiplicity — and emits one `unsubscribe` control frame for `T`, even
when other callbacks remain registered for `T`. -/
theorem unsubscribe_removes_only_pair (T : WebSocketChannel) (cb : Nat)
    (l : List Subscription) :
    Subscription.mk T cb ∉ (unsubscribeOp true T cb l).1 ∧
      (∀ e : Subscription, e ≠ ⟨T, cb⟩ →
        (unsubscribeOp true T cb l).1.count e = l.count e) ∧
      (unsubscribeOp true T cb l).2 = [⟨"unsubscribe", some T⟩] := by
  refine ⟨?_, ?_, rfl⟩
  · intro hmem
    have := (List.mem_filter.mp hmem).2
    simp at this
  · intro e he
    have hpred : (!(e.channel == T && e.callback == cb)) = true := by
      rcases e with ⟨a, b⟩
      by_cases h1 : a = T
      · by_cases h2 : b = cb
        · exact absurd (by rw [h1, h2]) he
        · simp [h2]
      · simp [h1]
    exact List.count_filter hpred

/-- Witness for C10: removing `(transactions, 0)` from the two-listener
registry keeps the other `transactions` listener yet still emits the
`unsubscribe` frame for the channel. -/
theorem unsubscribe_removes_only_pair_witness :
    Subscription.mk WebSocketChannel.transactions 0 ∉
        (unsubscribeOp true WebSocketChannel.transactions 0
          twoListeners).1 ∧
      (unsubscribeOp true WebSocketChannel.transactions 0
          twoListeners).1.count ⟨WebSocketChannel.transactions, 1⟩ = 1 ∧
      (unsubscribeOp true WebSocketChannel.transactions 0 twoListeners).2 =
        [⟨"unsubscribe", some WebSocketChannel.transactions⟩] := by
  have h := unsubscribe_removes_only_pair WebSocketChannel.transactions 0
    twoListeners
  refine ⟨h.1, ?_, h.2.2⟩
  rw [h.2.1 ⟨WebSocketChannel.transactions, 1⟩ (by decide)]
  decide

end PulseWS
